import Mathlib

/-!
Verification of the FreelaBR pricing engine (`src/frontend/app.js`,
class `FreelaBRCalculator`) against its natural-language specification.

The JavaScript engine is shallowly embedded over exact rationals (`ℚ`):
every `const` of `calculate` becomes a named definition, JavaScript's
`Math.round` becomes `jsRound` (round half toward positive infinity,
i.e. `⌊x + 1/2⌋`), and the tax-regime dispatch (a `switch` on a string)
becomes a chain of string comparisons with the same `default: return 0`
branch.  Division in `ℚ` returns 0 on a zero divisor where JavaScript
would produce `Infinity`/`NaN`; theorems touching that case only assert
that the divisor is zero and that the non-divided fields are still
computed, never a value for the divided fields.
-/

namespace FreelaBR

/-- `this.MEI_DAS_VALUE = 81.90` (app.js line 7). -/
def MEI_DAS_VALUE : ℚ := 819/10

/-- `this.MINIMUM_WAGE = 1518.00` (app.js line 8). -/
def MINIMUM_WAGE : ℚ := 1518

/-- The input record consumed by `calculate` (app.js lines 202-213).
`taxRegime` is a plain string, as in the source, where `calculate`
switches on it; the numeric fields are modelled as exact rationals. -/
structure Input where
  desiredMonthlyIncome : ℚ
  hoursPerDay : ℚ
  daysPerWeek : ℚ
  vacationWeeks : ℚ
  taxRegime : String
  include13th : Bool
  includeVacation : Bool
  monthlyExpenses : ℚ
  variableExpenses : ℚ
  profitMarginPercentage : ℚ

/-- The result record returned by `calculate` (app.js lines 95-114).
`workingHoursPerMonth` and `workingDaysPerMonth` are the only rounded
fields (`Math.round`), hence integers. -/
structure Output where
  hourlyRate : ℚ
  dailyRate : ℚ
  weeklyRate : ℚ
  monthlyRate : ℚ
  totalMonthlyCosts : ℚ
  totalAnnualCosts : ℚ
  monthlyTaxes : ℚ
  monthlyProvisions : ℚ
  netMonthlyIncome : ℚ
  workingHoursPerMonth : ℤ
  workingDaysPerMonth : ℤ
  taxRegime : String
  smallProjectValue : ℚ
  mediumProjectValue : ℚ
  largeProjectValue : ℚ

/-- JavaScript `Math.round`: round half toward positive infinity,
i.e. the floor of `x + 1/2` (`Rat.floor` is the computable floor on `ℚ`). -/
def jsRound (x : ℚ) : ℤ := (x + 1/2).floor

/-- `calculateProgressiveIR` (app.js lines 144-157): the simplified
2025 progressive income-tax table, brackets tested low-to-high with
inclusive upper bounds, each bracket computing `income × rate − deduction`. -/
def calculateProgressiveIR (monthlyIncome : ℚ) : ℚ :=
  if monthlyIncome ≤ 22592/10 then 0
  else if monthlyIncome ≤ 282865/100 then monthlyIncome * (75/1000) - 16944/100
  else if monthlyIncome ≤ 375105/100 then monthlyIncome * (15/100) - 38144/100
  else if monthlyIncome ≤ 466468/100 then monthlyIncome * (225/1000) - 66277/100
  else monthlyIncome * (275/1000) - 896

/-- `calculateMonthlyTaxes` (app.js lines 117-142): `switch` on the
regime string; the `default` branch returns 0. -/
def calculateMonthlyTaxes (monthlyIncome : ℚ) (taxRegime : String) : ℚ :=
  if taxRegime = "MEI" then MEI_DAS_VALUE
  else if taxRegime = "PJ_SIMPLES" then monthlyIncome * (6/100)
  else if taxRegime = "PJ_PRESUMIDO" then monthlyIncome * (1633/10000)
  else if taxRegime = "AUTONOMO" then
    MINIMUM_WAGE * (20/100) + calculateProgressiveIR monthlyIncome
  else 0

/-- `workingDaysPerMonth` (app.js lines 49-52):
`daysPerWeek * (52 - vacationWeeks) / 12`. -/
def workingDaysPerMonthVal (input : Input) : ℚ :=
  input.daysPerWeek * (52 - input.vacationWeeks) / 12

/-- `workingHoursPerMonth` (app.js lines 54-55):
`hoursPerDay * workingDaysPerMonth`. -/
def workingHoursPerMonthVal (input : Input) : ℚ :=
  input.hoursPerDay * workingDaysPerMonthVal input

/-- `monthlyProvisions` (app.js lines 64-70): `income/12` when the 13th
salary is provisioned, plus `(income/3)/12` when vacation pay is. -/
def monthlyProvisionsVal (input : Input) : ℚ :=
  (if input.include13th then input.desiredMonthlyIncome / 12 else 0) +
  (if input.includeVacation then input.desiredMonthlyIncome / 3 / 12 else 0)

/-- `totalMonthlyCosts` (app.js lines 73-78): income + taxes +
provisions + fixed expenses + variable expenses. -/
def totalMonthlyCostsVal (input : Input) : ℚ :=
  input.desiredMonthlyIncome +
  calculateMonthlyTaxes input.desiredMonthlyIncome input.taxRegime +
  monthlyProvisionsVal input +
  input.monthlyExpenses +
  input.variableExpenses

/-- `totalMonthlyRate` (app.js lines 81-82):
`totalMonthlyCosts / (1 - profitMarginPercentage/100)`. -/
def totalMonthlyRateVal (input : Input) : ℚ :=
  totalMonthlyCostsVal input / (1 - input.profitMarginPercentage / 100)

/-- `hourlyRate` (app.js line 85): `totalMonthlyRate / workingHoursPerMonth`. -/
def hourlyRateVal (input : Input) : ℚ :=
  totalMonthlyRateVal input / workingHoursPerMonthVal input

/-- `calculate` (app.js lines 47-115), assembling the output record
field by field from the intermediate values above, exactly as the
source's step comments 1-8 do. -/
def calculate (input : Input) : Output :=
  { hourlyRate := hourlyRateVal input
    dailyRate := hourlyRateVal input * input.hoursPerDay
    weeklyRate := hourlyRateVal input * input.hoursPerDay * input.daysPerWeek
    monthlyRate := totalMonthlyRateVal input
    totalMonthlyCosts := totalMonthlyCostsVal input
    totalAnnualCosts := totalMonthlyCostsVal input * 12
    monthlyTaxes := calculateMonthlyTaxes input.desiredMonthlyIncome input.taxRegime
    monthlyProvisions := monthlyProvisionsVal input
    netMonthlyIncome := input.desiredMonthlyIncome
    workingHoursPerMonth := jsRound (workingHoursPerMonthVal input)
    workingDaysPerMonth := jsRound (workingDaysPerMonthVal input)
    taxRegime := input.taxRegime
    smallProjectValue := hourlyRateVal input * 30
    mediumProjectValue := hourlyRateVal input * 100
    largeProjectValue := hourlyRateVal input * 200 }

/-- The spec's §3 validity conditions on an input: nonnegative monetary
fields, positive working time, `daysPerWeek ∈ [1,7]`,
`vacationWeeks ∈ [0,52]`, margin in `[0,100)`, recognized regime. -/
def ValidInput (i : Input) : Prop :=
  0 ≤ i.desiredMonthlyIncome ∧ 0 < i.hoursPerDay ∧
  1 ≤ i.daysPerWeek ∧ i.daysPerWeek ≤ 7 ∧
  0 ≤ i.vacationWeeks ∧ i.vacationWeeks ≤ 52 ∧
  0 ≤ i.monthlyExpenses ∧ 0 ≤ i.variableExpenses ∧
  0 ≤ i.profitMarginPercentage ∧ i.profitMarginPercentage < 100 ∧
  (i.taxRegime = "MEI" ∨ i.taxRegime = "PJ_SIMPLES" ∨
   i.taxRegime = "PJ_PRESUMIDO" ∨ i.taxRegime = "AUTONOMO")

instance (i : Input) : Decidable (ValidInput i) := by
  unfold ValidInput; infer_instance

/-- The spec's §8 concrete MEI scenario input. -/
def c1Input : Input :=
  { desiredMonthlyIncome := 3000, hoursPerDay := 6, daysPerWeek := 5,
    vacationWeeks := 4, taxRegime := "MEI", include13th := false,
    includeVacation := false, monthlyExpenses := 200, variableExpenses := 0,
    profitMarginPercentage := 20 }

theorem rat_floor_eq_int_floor (a : ℚ) : a.floor = ⌊a⌋ :=
  (Rat.floor_def' a).trans Rat.floor_def.symm

theorem jsRound_eq_of (x : ℚ) (n : ℤ) (h1 : (n : ℚ) ≤ x + 1/2)
    (h2 : x + 1/2 < (n : ℚ) + 1) : jsRound x = n := by
  rw [jsRound, rat_floor_eq_int_floor]
  exact Int.floor_eq_iff.mpr ⟨h1, h2⟩

/-- C1: on the input income=3000, hoursPerDay=6, daysPerWeek=5,
vacationWeeks=4, regime=MEI, no provisions, monthlyExpenses=200,
variableExpenses=0, margin=20, `calculate` returns
workingHoursPerMonth=120, workingDaysPerMonth=20, monthlyTaxes=81.90,
totalMonthlyCosts=3281.90, monthlyRate=4102.375, and an hourlyRate
within a cent of 34.19. -/
theorem c1_concrete_scenario :
    (calculate c1Input).workingHoursPerMonth = 120 ∧
    (calculate c1Input).workingDaysPerMonth = 20 ∧
    (calculate c1Input).monthlyTaxes = 819/10 ∧
    (calculate c1Input).totalMonthlyCosts = 32819/10 ∧
    (calculate c1Input).monthlyRate = 4102375/1000 ∧
    |(calculate c1Input).hourlyRate - 3419/100| < 1/100 := by
  have hD : workingDaysPerMonthVal c1Input = 20 := by
    norm_num [workingDaysPerMonthVal, c1Input]
  have hH : workingHoursPerMonthVal c1Input = 120 := by
    norm_num [workingHoursPerMonthVal, workingDaysPerMonthVal, c1Input]
  have hT : calculateMonthlyTaxes c1Input.desiredMonthlyIncome c1Input.taxRegime
      = 819/10 := by
    norm_num [calculateMonthlyTaxes, MEI_DAS_VALUE, c1Input]
  have hC : totalMonthlyCostsVal c1Input = 32819/10 := by
    norm_num [totalMonthlyCostsVal, monthlyProvisionsVal, calculateMonthlyTaxes,
      MEI_DAS_VALUE, c1Input]
  have hR : totalMonthlyRateVal c1Input = 4102375/1000 := by
    unfold totalMonthlyRateVal
    rw [hC]
    norm_num [c1Input]
  refine ⟨?_, ?_, hT, hC, hR, ?_⟩
  · show jsRound (workingHoursPerMonthVal c1Input) = 120
    rw [hH]; exact jsRound_eq_of 120 120 (by norm_num) (by norm_num)
  · show jsRound (workingDaysPerMonthVal c1Input) = 20
    rw [hD]; exact jsRound_eq_of 20 20 (by norm_num) (by norm_num)
  · show |hourlyRateVal c1Input - 3419/100| < 1/100
    unfold hourlyRateVal
    rw [hR, hH, abs_sub_lt_iff]
    constructor <;> norm_num

/-- C8: the monthly tax under the MEI regime is the constant 81.90,
independent of the income. -/
theorem c8_mei_constant (x : ℚ) (hx : 0 ≤ x) :
    calculateMonthlyTaxes x "MEI" = 819/10 := by
  norm_num [calculateMonthlyTaxes, MEI_DAS_VALUE]

theorem c8_mei_constant_witness :
    (0 : ℚ) ≤ 5000 ∧ calculateMonthlyTaxes 5000 "MEI" = 819/10 :=
  ⟨by norm_num, c8_mei_constant 5000 (by norm_num)⟩

/-- C9: the daily rate is the hourly rate times `hoursPerDay`, and the
weekly rate is the daily rate times `daysPerWeek`, exactly; both fields
are built from exactly those products, so this holds for every input
(in particular every valid one). -/
theorem c9_daily_weekly_exact (i : Input) :
    (calculate i).dailyRate = (calculate i).hourlyRate * i.hoursPerDay ∧
    (calculate i).weeklyRate = (calculate i).dailyRate * i.daysPerWeek :=
  ⟨rfl, rfl⟩

/-- C10: `calculate` echoes the input's `desiredMonthlyIncome` as
`netMonthlyIncome` and the input's `taxRegime` as the output's
`taxRegime`, unchanged, for every input. -/
theorem c10_output_echo (i : Input) :
    (calculate i).netMonthlyIncome = i.desiredMonthlyIncome ∧
    (calculate i).taxRegime = i.taxRegime :=
  ⟨rfl, rfl⟩

/-- C4: for every income `x ≥ 0` the AUTONOMO monthly tax is
`minimumWage × 0.20 + progressiveIR(x)` (with `progressiveIR` the
bracket table evaluated low-to-high, inclusive upper bounds, formula
`income × rate − deduction`); concretely the tax at income 2000 is
303.60 and at income 3000 is 372.16. -/
theorem c4_autonomo_tax (x : ℚ) (hx : 0 ≤ x) :
    calculateMonthlyTaxes x "AUTONOMO"
      = MINIMUM_WAGE * (20/100) + calculateProgressiveIR x ∧
    calculateMonthlyTaxes 2000 "AUTONOMO" = 3036/10 ∧
    calculateMonthlyTaxes 3000 "AUTONOMO" = 37216/100 := by
  have h1 : ("AUTONOMO" : String) ≠ "MEI" := by decide
  have h2 : ("AUTONOMO" : String) ≠ "PJ_SIMPLES" := by decide
  have h3 : ("AUTONOMO" : String) ≠ "PJ_PRESUMIDO" := by decide
  refine ⟨by norm_num [calculateMonthlyTaxes, h1, h2, h3], ?_, ?_⟩
  · norm_num [calculateMonthlyTaxes, calculateProgressiveIR, MINIMUM_WAGE,
      h1, h2, h3]
  · norm_num [calculateMonthlyTaxes, calculateProgressiveIR, MINIMUM_WAGE,
      h1, h2, h3]

theorem c4_autonomo_tax_witness :
    (0 : ℚ) ≤ 2000 ∧
    (calculateMonthlyTaxes 2000 "AUTONOMO"
       = MINIMUM_WAGE * (20/100) + calculateProgressiveIR 2000 ∧
     calculateMonthlyTaxes 2000 "AUTONOMO" = 3036/10 ∧
     calculateMonthlyTaxes 3000 "AUTONOMO" = 37216/100) :=
  ⟨by norm_num, c4_autonomo_tax 2000 (by norm_num)⟩

/-- The C1 scenario input with the profit margin raised to 100 percent. -/
def c2Input : Input :=
  { desiredMonthlyIncome := 3000, hoursPerDay := 6, daysPerWeek := 5,
    vacationWeeks := 4, taxRegime := "MEI", include13th := false,
    includeVacation := false, monthlyExpenses := 200, variableExpenses := 0,
    profitMarginPercentage := 100 }

/-- C2 counterexample: at `profitMarginPercentage = 100` the code does
not report any error; `calculate` still runs and returns a full Output
whose cost fields are computed (taxes 81.90, total costs 3281.90, income
echoed), even though the rate divisor `1 - margin/100` is zero. -/
theorem c2_counterexample :
    c2Input.profitMarginPercentage = 100 ∧
    1 - c2Input.profitMarginPercentage / 100 = 0 ∧
    (calculate c2Input).monthlyTaxes = 819/10 ∧
    (calculate c2Input).totalMonthlyCosts = 32819/10 ∧
    (calculate c2Input).netMonthlyIncome = 3000 := by
  refine ⟨rfl, by norm_num [c2Input], ?_, ?_, rfl⟩
  · show calculateMonthlyTaxes c2Input.desiredMonthlyIncome c2Input.taxRegime
      = 819/10
    norm_num [calculateMonthlyTaxes, MEI_DAS_VALUE, c2Input]
  · show totalMonthlyCostsVal c2Input = 32819/10
    norm_num [totalMonthlyCostsVal, monthlyProvisionsVal, calculateMonthlyTaxes,
      MEI_DAS_VALUE, c2Input]

/-- C2 amended: `calculate` performs no validation of the profit margin.
For every input with `profitMarginPercentage = 100`, the rate divisor
`1 - margin/100` is zero (JavaScript then yields Infinity/NaN for the
rate fields), yet the Output is still produced with all cost fields
computed normally and the income echoed. -/
theorem c2_no_validation (i : Input) (h : i.profitMarginPercentage = 100) :
    1 - i.profitMarginPercentage / 100 = 0 ∧
    (calculate i).totalMonthlyCosts =
      i.desiredMonthlyIncome +
      calculateMonthlyTaxes i.desiredMonthlyIncome i.taxRegime +
      (calculate i).monthlyProvisions + i.monthlyExpenses + i.variableExpenses ∧
    (calculate i).netMonthlyIncome = i.desiredMonthlyIncome :=
  ⟨by rw [h]; norm_num, rfl, rfl⟩

theorem c2_no_validation_witness :
    c2Input.profitMarginPercentage = 100 ∧
    (1 - c2Input.profitMarginPercentage / 100 = 0 ∧
     (calculate c2Input).totalMonthlyCosts =
       c2Input.desiredMonthlyIncome +
       calculateMonthlyTaxes c2Input.desiredMonthlyIncome c2Input.taxRegime +
       (calculate c2Input).monthlyProvisions + c2Input.monthlyExpenses +
       c2Input.variableExpenses ∧
     (calculate c2Input).netMonthlyIncome = c2Input.desiredMonthlyIncome) :=
  ⟨rfl, c2_no_validation c2Input rfl⟩

/-- The C1 scenario input with a tax regime string outside the four
recognized values. -/
def c6Input : Input :=
  { desiredMonthlyIncome := 3000, hoursPerDay := 6, daysPerWeek := 5,
    vacationWeeks := 4, taxRegime := "CLT", include13th := false,
    includeVacation := false, monthlyExpenses := 200, variableExpenses := 0,
    profitMarginPercentage := 20 }

/-- C6 counterexample: for the unrecognized regime string "CLT" no error
is reported; the `default` branch of the tax `switch` silently returns 0
and `calculate` produces a complete Output (costs 3200, monthly rate
4000, hourly rate 100/3). -/
theorem c6_counterexample :
    c6Input.taxRegime ≠ "MEI" ∧ c6Input.taxRegime ≠ "PJ_SIMPLES" ∧
    c6Input.taxRegime ≠ "PJ_PRESUMIDO" ∧ c6Input.taxRegime ≠ "AUTONOMO" ∧
    (calculate c6Input).monthlyTaxes = 0 ∧
    (calculate c6Input).totalMonthlyCosts = 3200 ∧
    (calculate c6Input).monthlyRate = 4000 ∧
    (calculate c6Input).hourlyRate = 100/3 ∧
    (calculate c6Input).netMonthlyIncome = 3000 := by
  have h1 : ("CLT" : String) ≠ "MEI" := by decide
  have h2 : ("CLT" : String) ≠ "PJ_SIMPLES" := by decide
  have h3 : ("CLT" : String) ≠ "PJ_PRESUMIDO" := by decide
  have h4 : ("CLT" : String) ≠ "AUTONOMO" := by decide
  have hT : calculateMonthlyTaxes c6Input.desiredMonthlyIncome c6Input.taxRegime
      = 0 := by
    norm_num [calculateMonthlyTaxes, c6Input, h1, h2, h3, h4]
  have hC : totalMonthlyCostsVal c6Input = 3200 := by
    norm_num [totalMonthlyCostsVal, monthlyProvisionsVal, calculateMonthlyTaxes,
      c6Input, h1, h2, h3, h4]
  have hR : totalMonthlyRateVal c6Input = 4000 := by
    unfold totalMonthlyRateVal
    rw [hC]
    norm_num [c6Input]
  have hH : workingHoursPerMonthVal c6Input = 120 := by
    norm_num [workingHoursPerMonthVal, workingDaysPerMonthVal, c6Input]
  refine ⟨by decide, by decide, by decide, by decide, hT, hC, hR, ?_, rfl⟩
  show hourlyRateVal c6Input = 100/3
  unfold hourlyRateVal
  rw [hR, hH]
  norm_num

/-- C6 amended: for every input whose `taxRegime` is none of the four
recognized strings, no error is reported: `calculateMonthlyTaxes` falls
through to its `default` branch and returns 0, and `calculate` produces
a complete Output whose taxes are 0 and whose total cost omits any tax. -/
theorem c6_unknown_regime (i : Input)
    (h1 : i.taxRegime ≠ "MEI") (h2 : i.taxRegime ≠ "PJ_SIMPLES")
    (h3 : i.taxRegime ≠ "PJ_PRESUMIDO") (h4 : i.taxRegime ≠ "AUTONOMO") :
    calculateMonthlyTaxes i.desiredMonthlyIncome i.taxRegime = 0 ∧
    (calculate i).monthlyTaxes = 0 ∧
    (calculate i).totalMonthlyCosts =
      i.desiredMonthlyIncome + (calculate i).monthlyProvisions +
      i.monthlyExpenses + i.variableExpenses ∧
    (calculate i).netMonthlyIncome = i.desiredMonthlyIncome := by
  have h : calculateMonthlyTaxes i.desiredMonthlyIncome i.taxRegime = 0 := by
    simp [calculateMonthlyTaxes, h1, h2, h3, h4]
  refine ⟨h, h, ?_, rfl⟩
  show totalMonthlyCostsVal i =
    i.desiredMonthlyIncome + monthlyProvisionsVal i +
    i.monthlyExpenses + i.variableExpenses
  rw [totalMonthlyCostsVal, h]
  ring

theorem c6_unknown_regime_witness :
    c6Input.taxRegime ≠ "MEI" ∧
    (calculateMonthlyTaxes c6Input.desiredMonthlyIncome c6Input.taxRegime = 0 ∧
     (calculate c6Input).monthlyTaxes = 0 ∧
     (calculate c6Input).totalMonthlyCosts =
       c6Input.desiredMonthlyIncome + (calculate c6Input).monthlyProvisions +
       c6Input.monthlyExpenses + c6Input.variableExpenses ∧
     (calculate c6Input).netMonthlyIncome = c6Input.desiredMonthlyIncome) :=
  ⟨by decide,
   c6_unknown_regime c6Input (by decide) (by decide) (by decide) (by decide)⟩

/-- C3: the progressive IR table is NOT continuous to within one cent at
the bracket boundary 2828.65: at 2828.65 the 7.5 percent bracket gives
42.70875, one cent above (2828.66) the 15 percent bracket gives 42.859,
a jump of 0.15025 ≥ 0.01.  (The deduction 381.44 equals
2826.65 × 0.075 + 169.44 to the cent, so the table's constants were
derived for a boundary of 2826.65; the code's 2828.65 is off by 2.) -/
theorem c3_boundary_jump :
    calculateProgressiveIR (282865/100) = 4270875/100000 ∧
    calculateProgressiveIR (282866/100) = 42859/1000 ∧
    calculateProgressiveIR (282866/100) - calculateProgressiveIR (282865/100)
      = 15025/100000 ∧
    (1/100 : ℚ) ≤
      calculateProgressiveIR (282866/100) - calculateProgressiveIR (282865/100) := by
  have hlo : calculateProgressiveIR (282865/100) = 4270875/100000 := by
    norm_num [calculateProgressiveIR]
  have hhi : calculateProgressiveIR (282866/100) = 42859/1000 := by
    norm_num [calculateProgressiveIR]
  refine ⟨hlo, hhi, ?_, ?_⟩
  · rw [hlo, hhi]; norm_num
  · rw [hlo, hhi]; norm_num

/-- The C1 scenario input with `vacationWeeks = 3`, making the exact
working hours per month 122.5 so that the Output's rounded field is 123. -/
def c7Input : Input :=
  { desiredMonthlyIncome := 3000, hoursPerDay := 6, daysPerWeek := 5,
    vacationWeeks := 3, taxRegime := "MEI", include13th := false,
    includeVacation := false, monthlyExpenses := 200, variableExpenses := 0,
    profitMarginPercentage := 20 }

/-- C7 counterexample: with the ROUNDED `workingHoursPerMonth` field
returned in the Output, `hourlyRate × workingHoursPerMonth` misses
`monthlyRate` by far more than 1e-6 relative.  On a valid input with
122.5 exact working hours (rounded to 123) the product exceeds the
monthly rate by 32819/1960 ≈ 16.74, about 0.41 percent of the rate. -/
theorem c7_counterexample :
    ValidInput c7Input ∧
    (1/1000000) * |(calculate c7Input).monthlyRate| <
      |(calculate c7Input).hourlyRate *
        ((calculate c7Input).workingHoursPerMonth : ℚ) -
       (calculate c7Input).monthlyRate| := by
  have hH : workingHoursPerMonthVal c7Input = 245/2 := by
    norm_num [workingHoursPerMonthVal, workingDaysPerMonthVal, c7Input]
  have hRound : (calculate c7Input).workingHoursPerMonth = 123 := by
    show jsRound (workingHoursPerMonthVal c7Input) = 123
    rw [hH]
    exact jsRound_eq_of (245/2) 123 (by norm_num) (by norm_num)
  have hC : totalMonthlyCostsVal c7Input = 32819/10 := by
    norm_num [totalMonthlyCostsVal, monthlyProvisionsVal, calculateMonthlyTaxes,
      MEI_DAS_VALUE, c7Input]
  have hRv : totalMonthlyRateVal c7Input = 32819/8 := by
    unfold totalMonthlyRateVal
    rw [hC]
    norm_num [c7Input]
  have hHv : hourlyRateVal c7Input = 32819/980 := by
    unfold hourlyRateVal
    rw [hRv, hH]
    norm_num
  constructor
  · refine ⟨by norm_num [c7Input], by norm_num [c7Input], by norm_num [c7Input],
      by norm_num [c7Input], by norm_num [c7Input], by norm_num [c7Input],
      by norm_num [c7Input], by norm_num [c7Input], by norm_num [c7Input],
      by norm_num [c7Input], Or.inl rfl⟩
  · show (1/1000000) * |totalMonthlyRateVal c7Input| <
      |hourlyRateVal c7Input *
        ((jsRound (workingHoursPerMonthVal c7Input) : ℤ) : ℚ) -
       totalMonthlyRateVal c7Input|
    rw [hRv, hHv]
    rw [show jsRound (workingHoursPerMonthVal c7Input) = 123 from hRound]
    have habs1 : |(32819/8 : ℚ)| = 32819/8 := abs_of_pos (by norm_num)
    have hval : (32819/980 : ℚ) * ((123 : ℤ) : ℚ) - 32819/8 = 32819/1960 := by
      norm_num
    rw [habs1, hval, abs_of_pos (by norm_num : (0:ℚ) < 32819/1960)]
    norm_num

/-- C7 amended: the identity holds exactly with the UNROUNDED working
hours per month (the internal value `hoursPerDay × daysPerWeek ×
(52 − vacationWeeks)/12` that the code divides by): whenever that value
is nonzero, `hourlyRate × workingHours = monthlyRate` with no error at
all; only the rounded Output field breaks the 1e-6 tolerance. -/
theorem c7_exact_unrounded (i : Input) (h : workingHoursPerMonthVal i ≠ 0) :
    (calculate i).hourlyRate * workingHoursPerMonthVal i
      = (calculate i).monthlyRate := by
  show hourlyRateVal i * workingHoursPerMonthVal i = totalMonthlyRateVal i
  unfold hourlyRateVal
  exact div_mul_cancel₀ _ h

theorem c7_exact_unrounded_witness :
    workingHoursPerMonthVal c1Input ≠ 0 ∧
    (calculate c1Input).hourlyRate * workingHoursPerMonthVal c1Input
      = (calculate c1Input).monthlyRate :=
  ⟨by norm_num [workingHoursPerMonthVal, workingDaysPerMonthVal, c1Input],
   c7_exact_unrounded c1Input
     (by norm_num [workingHoursPerMonthVal, workingDaysPerMonthVal, c1Input])⟩

/-- Regime dispatch helper: for the AUTONOMO branch of the tax switch. -/
theorem calculateMonthlyTaxes_autonomo (x : ℚ) :
    calculateMonthlyTaxes x "AUTONOMO"
      = MINIMUM_WAGE * (20/100) + calculateProgressiveIR x := by
  have h1 : ("AUTONOMO" : String) ≠ "MEI" := by decide
  have h2 : ("AUTONOMO" : String) ≠ "PJ_SIMPLES" := by decide
  have h3 : ("AUTONOMO" : String) ≠ "PJ_PRESUMIDO" := by decide
  norm_num [calculateMonthlyTaxes, h1, h2, h3]

/-- Monthly taxes are monotone in income for every regime other than
AUTONOMO (constant for MEI and the default branch, linear with a
positive coefficient for the two PJ regimes). -/
theorem calculateMonthlyTaxes_mono (x y : ℚ) (r : String)
    (hr : r ≠ "AUTONOMO") (hxy : x ≤ y) :
    calculateMonthlyTaxes x r ≤ calculateMonthlyTaxes y r := by
  unfold calculateMonthlyTaxes
  by_cases hm : r = "MEI"
  · simp only [if_pos hm]
    exact le_rfl
  · simp only [if_neg hm]
    by_cases hs : r = "PJ_SIMPLES"
    · simp only [if_pos hs]
      linarith
    · simp only [if_neg hs]
      by_cases hp : r = "PJ_PRESUMIDO"
      · simp only [if_pos hp]
        linarith
      · simp only [if_neg hp, if_neg hr]
        exact le_rfl

/-- An AUTONOMO input with the income exactly on the 3751.05 bracket
boundary. -/
def c5InputA : Input :=
  { desiredMonthlyIncome := 375105/100, hoursPerDay := 6, daysPerWeek := 5,
    vacationWeeks := 4, taxRegime := "AUTONOMO", include13th := false,
    includeVacation := false, monthlyExpenses := 200, variableExpenses := 0,
    profitMarginPercentage := 20 }

/-- The same input with the income a tenth of a cent higher, just past
the 3751.05 bracket boundary. -/
def c5InputB : Input :=
  { desiredMonthlyIncome := 3751051/1000, hoursPerDay := 6, daysPerWeek := 5,
    vacationWeeks := 4, taxRegime := "AUTONOMO", include13th := false,
    includeVacation := false, monthlyExpenses := 200, variableExpenses := 0,
    profitMarginPercentage := 20 }

/-- C5 counterexample: two valid AUTONOMO inputs identical except in
`desiredMonthlyIncome`, where the strictly larger income 3751.051 yields
a strictly SMALLER hourly rate than income 3751.05, because the
progressive IR drops by 0.001025 when crossing the (misplaced) 3751.05
bracket boundary, which outweighs the 0.001 income increase. -/
theorem c5_counterexample :
    ValidInput c5InputA ∧ ValidInput c5InputB ∧
    c5InputA.desiredMonthlyIncome < c5InputB.desiredMonthlyIncome ∧
    (calculate c5InputB).hourlyRate < (calculate c5InputA).hourlyRate := by
  have hHA : workingHoursPerMonthVal c5InputA = 120 := by
    norm_num [workingHoursPerMonthVal, workingDaysPerMonthVal, c5InputA]
  have hHB : workingHoursPerMonthVal c5InputB = 120 := by
    norm_num [workingHoursPerMonthVal, workingDaysPerMonthVal, c5InputB]
  have hTA : calculateMonthlyTaxes c5InputA.desiredMonthlyIncome
      c5InputA.taxRegime = 4848175/10000 := by
    show calculateMonthlyTaxes (375105/100) "AUTONOMO" = 4848175/10000
    rw [calculateMonthlyTaxes_autonomo]
    norm_num [calculateProgressiveIR, MINIMUM_WAGE]
  have hTB : calculateMonthlyTaxes c5InputB.desiredMonthlyIncome
      c5InputB.taxRegime = 484816475/1000000 := by
    show calculateMonthlyTaxes (3751051/1000) "AUTONOMO" = 484816475/1000000
    rw [calculateMonthlyTaxes_autonomo]
    norm_num [calculateProgressiveIR, MINIMUM_WAGE]
  have hCA : totalMonthlyCostsVal c5InputA = 44358675/10000 := by
    unfold totalMonthlyCostsVal
    rw [hTA]
    norm_num [monthlyProvisionsVal, c5InputA]
  have hCB : totalMonthlyCostsVal c5InputB = 4435867475/1000000 := by
    unfold totalMonthlyCostsVal
    rw [hTB]
    norm_num [monthlyProvisionsVal, c5InputB]
  have hRA : totalMonthlyRateVal c5InputA = 221793375/40000 := by
    unfold totalMonthlyRateVal
    rw [hCA]
    norm_num [c5InputA]
  have hRB : totalMonthlyRateVal c5InputB = 22179337375/4000000 := by
    unfold totalMonthlyRateVal
    rw [hCB]
    norm_num [c5InputB]
  refine ⟨?_, ?_, by norm_num [c5InputA, c5InputB], ?_⟩
  · exact ⟨by norm_num [c5InputA], by norm_num [c5InputA], by norm_num [c5InputA],
      by norm_num [c5InputA], by norm_num [c5InputA], by norm_num [c5InputA],
      by norm_num [c5InputA], by norm_num [c5InputA], by norm_num [c5InputA],
      by norm_num [c5InputA], Or.inr (Or.inr (Or.inr rfl))⟩
  · exact ⟨by norm_num [c5InputB], by norm_num [c5InputB], by norm_num [c5InputB],
      by norm_num [c5InputB], by norm_num [c5InputB], by norm_num [c5InputB],
      by norm_num [c5InputB], by norm_num [c5InputB], by norm_num [c5InputB],
      by norm_num [c5InputB], Or.inr (Or.inr (Or.inr rfl))⟩
  · show hourlyRateVal c5InputB < hourlyRateVal c5InputA
    unfold hourlyRateVal
    rw [hRA, hRB, hHA, hHB]
    norm_num

/-- C5 amended: increasing `desiredMonthlyIncome` with every other field
fixed never decreases the hourly rate PROVIDED the tax regime is not
AUTONOMO (for AUTONOMO the hourly rate can strictly decrease across the
3751.05 bracket boundary).  Stated for margins in [0,100), nonnegative
working-time fields and at most 52 vacation weeks. -/
theorem c5_monotone_non_autonomo (i j : Input)
    (hhd : i.hoursPerDay = j.hoursPerDay)
    (hdw : i.daysPerWeek = j.daysPerWeek)
    (hvw : i.vacationWeeks = j.vacationWeeks)
    (hreg : i.taxRegime = j.taxRegime)
    (h13 : i.include13th = j.include13th)
    (hvac : i.includeVacation = j.includeVacation)
    (hme : i.monthlyExpenses = j.monthlyExpenses)
    (hve : i.variableExpenses = j.variableExpenses)
    (hpm : i.profitMarginPercentage = j.profitMarginPercentage)
    (hr : i.taxRegime ≠ "AUTONOMO")
    (hinc : i.desiredMonthlyIncome ≤ j.desiredMonthlyIncome)
    (hm0 : 0 ≤ i.profitMarginPercentage)
    (hm1 : i.profitMarginPercentage < 100)
    (hh : 0 ≤ i.hoursPerDay) (hd : 0 ≤ i.daysPerWeek)
    (hv : i.vacationWeeks ≤ 52) :
    (calculate i).hourlyRate ≤ (calculate j).hourlyRate := by
  have htax : calculateMonthlyTaxes i.desiredMonthlyIncome i.taxRegime ≤
      calculateMonthlyTaxes j.desiredMonthlyIncome j.taxRegime := by
    rw [← hreg]
    exact calculateMonthlyTaxes_mono _ _ _ hr hinc
  have hprov : monthlyProvisionsVal i ≤ monthlyProvisionsVal j := by
    unfold monthlyProvisionsVal
    rw [h13, hvac]
    apply add_le_add
    · split_ifs
      · linarith
      · exact le_rfl
    · split_ifs
      · linarith
      · exact le_rfl
  have hcost : totalMonthlyCostsVal i ≤ totalMonthlyCostsVal j := by
    unfold totalMonthlyCostsVal
    rw [hme, hve]
    linarith [htax, hprov, hinc]
  have hdiv : (0 : ℚ) < 1 - i.profitMarginPercentage / 100 := by linarith
  have hrate : totalMonthlyRateVal i ≤ totalMonthlyRateVal j := by
    unfold totalMonthlyRateVal
    rw [← hpm]
    exact div_le_div_of_nonneg_right hcost hdiv.le
  have hHeq : workingHoursPerMonthVal i = workingHoursPerMonthVal j := by
    unfold workingHoursPerMonthVal workingDaysPerMonthVal
    rw [hhd, hdw, hvw]
  have hH0 : (0 : ℚ) ≤ workingHoursPerMonthVal i := by
    unfold workingHoursPerMonthVal workingDaysPerMonthVal
    have h52 : (0 : ℚ) ≤ 52 - i.vacationWeeks := by linarith
    exact mul_nonneg hh (div_nonneg (mul_nonneg hd h52) (by norm_num))
  show hourlyRateVal i ≤ hourlyRateVal j
  unfold hourlyRateVal
  rw [← hHeq]
  exact div_le_div_of_nonneg_right hrate hH0

/-- The C1 scenario input, used as the smaller-income side of the C5
witness. -/
def c5wA : Input :=
  { desiredMonthlyIncome := 3000, hoursPerDay := 6, daysPerWeek := 5,
    vacationWeeks := 4, taxRegime := "MEI", include13th := false,
    includeVacation := false, monthlyExpenses := 200, variableExpenses := 0,
    profitMarginPercentage := 20 }

/-- The same input with a larger desired income. -/
def c5wB : Input :=
  { desiredMonthlyIncome := 3100, hoursPerDay := 6, daysPerWeek := 5,
    vacationWeeks := 4, taxRegime := "MEI", include13th := false,
    includeVacation := false, monthlyExpenses := 200, variableExpenses := 0,
    profitMarginPercentage := 20 }

theorem c5_monotone_non_autonomo_witness :
    c5wA.taxRegime ≠ "AUTONOMO" ∧
    c5wA.desiredMonthlyIncome ≤ c5wB.desiredMonthlyIncome ∧
    (calculate c5wA).hourlyRate ≤ (calculate c5wB).hourlyRate :=
  ⟨by decide, by norm_num [c5wA, c5wB],
   c5_monotone_non_autonomo c5wA c5wB rfl rfl rfl rfl rfl rfl rfl rfl rfl
     (by decide) (by norm_num [c5wA, c5wB]) (by norm_num [c5wA])
     (by norm_num [c5wA]) (by norm_num [c5wA]) (by norm_num [c5wA])
     (by norm_num [c5wA])⟩

end FreelaBR
